import Mathlib

/-!
Shallow embedding of the metadata-explorer application logic
(src/_site/script.js) together with theorems settling the frozen claims.

Modelling conventions:
- JavaScript values reaching the serialization pipeline are JSON trees;
  they are modelled by the inductive type `JSValue`.  Objects are modelled
  as association lists whose list order is the key iteration order of the
  object (the order that Object.entries yields in JavaScript).
- JavaScript numbers are modelled as integers rendered by `toString`;
  every claim under scrutiny is independent of floating-point rendering.
- `utils.decodeHtmlEntities` delegates to the browser DOM (a detached
  textarea element), an external collaborator; it is modelled as an
  explicit function parameter `decode : String → String` threaded through
  the converter, instantiated with `id` in concrete computations.
- Strings are compared, searched and concatenated with bespoke
  list-of-characters helpers so every definition evaluates inside the
  kernel.
-/

namespace MetadataExplorer

/-- Model of a JavaScript JSON-tree value (string, number, boolean,
null, array, object).  Object entry order is the JS key iteration
order. -/
inductive JSValue where
  | vstr (s : String)
  | vnum (n : Int)
  | vbool (b : Bool)
  | vnull
  | varr (elems : List JSValue)
  | vobj (entries : List (String × JSValue))

/-- A JavaScript object: association list in key iteration order. -/
abbrev JSObj := List (String × JSValue)

/-- JavaScript truthiness of a value: empty string, zero, false and null
are falsy; every array and object (even empty) is truthy. -/
def truthy : JSValue → Bool
  | .vstr s => !(s = "")
  | .vnum n => !(n = 0)
  | .vbool b => b
  | .vnull => false
  | .varr _ => true
  | .vobj _ => true

/-- Truthiness of an optional property lookup: an absent property
(JS undefined) is falsy. -/
def truthyOpt : Option JSValue → Bool
  | some v => truthy v
  | none => false

/-- Model of utils.isObject restricted to JSON values:
typeof val is object and val is not null, i.e. arrays and objects. -/
def isObjectVal : JSValue → Bool
  | .varr _ => true
  | .vobj _ => true
  | _ => false

/-- Model of JS String.startsWith, by character lists. -/
def strStartsWith (s p : String) : Bool :=
  p.data.isPrefixOf s.data

/-- Occurrence of a character-list pattern anywhere in a character list. -/
def listHasPattern (pat : List Char) : List Char → Bool
  | [] => pat.isEmpty
  | l@(_ :: ls) => pat.isPrefixOf l || listHasPattern pat ls

/-- Model of JS String.includes: the pattern occurs somewhere in s. -/
def strContains (s pat : String) : Bool :=
  listHasPattern pat.data s.data

/-- Model of JS Array.prototype.join with a separator. -/
def joinSep (sep : String) : List String → String
  | [] => ""
  | [x] => x
  | x :: y :: xs => x ++ sep ++ joinSep sep (y :: xs)

/-- Model of the JS replacement value.replace of every double quote by a
backslash-escaped double quote. -/
def escQuotes (s : String) : String :=
  String.mk (s.data.foldr (fun c acc => if c = '"' then '\\' :: '"' :: acc else c :: acc) [])

mutual
/-- Model of JS template-literal string coercion String(v). -/
def jsToString : JSValue → String
  | .vstr s => s
  | .vnum n => toString n
  | .vbool b => cond b "true" "false"
  | .vnull => "null"
  | .varr vs => jsToStringList vs
  | .vobj _ => "[object Object]"

/-- Model of JS Array.prototype.toString: elements joined by commas,
null elements rendered empty. -/
def jsToStringList : List JSValue → String
  | [] => ""
  | [v] => jsToStringElem v
  | v :: vs => jsToStringElem v ++ "," ++ jsToStringList vs

/-- An element inside an array coercion: null renders as the empty
string. -/
def jsToStringElem : JSValue → String
  | .vnull => ""
  | .vstr s => s
  | .vnum n => toString n
  | .vbool b => cond b "true" "false"
  | .varr vs => jsToStringList vs
  | .vobj _ => "[object Object]"
end

/-- Hexadecimal digit character for a value below 16 (lowercase). -/
def hexDigit (n : Nat) : Char :=
  if n < 10 then Char.ofNat (48 + n) else Char.ofNat (87 + n)

/-- Escaping of one character inside a JSON string literal, as
JSON.stringify performs it. -/
def jsonEscapeChar (c : Char) : List Char :=
  if c = '"' then ['\\', '"']
  else if c = '\\' then ['\\', '\\']
  else if c = '\n' then ['\\', 'n']
  else if c = '\r' then ['\\', 'r']
  else if c = '\t' then ['\\', 't']
  else if c = Char.ofNat 8 then ['\\', 'b']
  else if c = Char.ofNat 12 then ['\\', 'f']
  else if c.toNat < 32 then ['\\', 'u', '0', '0', hexDigit (c.toNat / 16), hexDigit (c.toNat % 16)]
  else [c]

/-- JSON string literal for s, double-quoted with escapes. -/
def jsonQuote (s : String) : String :=
  "\"" ++ String.mk (s.data.foldr (fun c acc => jsonEscapeChar c ++ acc) []) ++ "\""

mutual
/-- Model of JSON.stringify(value) in its compact (no indent) form. -/
def jsonStringify : JSValue → String
  | .vstr s => jsonQuote s
  | .vnum n => toString n
  | .vbool b => cond b "true" "false"
  | .vnull => "null"
  | .varr vs => "[" ++ jsonStringifyList vs ++ "]"
  | .vobj kvs => "\x7b" ++ jsonStringifyProps kvs ++ "\x7d"

/-- Array elements of JSON.stringify, comma separated. -/
def jsonStringifyList : List JSValue → String
  | [] => ""
  | [v] => jsonStringify v
  | v :: vs => jsonStringify v ++ "," ++ jsonStringifyList vs

/-- Object entries of JSON.stringify, comma separated. -/
def jsonStringifyProps : List (String × JSValue) → String
  | [] => ""
  | [(k, v)] => jsonQuote k ++ ":" ++ jsonStringify v
  | (k, v) :: kvs => jsonQuote k ++ ":" ++ jsonStringify v ++ "," ++ jsonStringifyProps kvs
end

namespace utils

/-- Model of utils.isJSONLD: the object has a truthy attribute-context
or a truthy attribute-type marker (source line 15). -/
def isJSONLD (o : JSObj) : Bool :=
  truthyOpt (List.lookup "@context" o) || truthyOpt (List.lookup "@type" o)

end utils

namespace RDFConverter

/-- The fixed prefix table of RDFConverter.prefixes, in its declaration
order (source lines 56-64). -/
def prefixes : List (String × String) :=
  [("schema", "https://schema.org/"),
   ("csvw", "https://www.w3.org/ns/csvw#"),
   ("foaf", "http://xmlns.com/foaf/0.1/"),
   ("dcat", "http://www.w3.org/ns/dcat#"),
   ("sh", "http://www.w3.org/ns/shacl#"),
   ("rdf", "http://www.w3.org/1999/02/22-rdf-syntax-ns#"),
   ("rdfs", "http://www.w3.org/2000/01/rdf-schema#")]

mutual
/-- Model of RDFConverter.formatValue (source lines 82-115).
The decode parameter models utils.decodeHtmlEntities, which delegates to
the browser DOM; in the source it is applied to the value first and used
in the string branches only. -/
def formatValue (decode : String → String) : JSValue → String → String
  | .vstr s, _ =>
    let d := decode s
    if strStartsWith d "http://" || strStartsWith d "https://" then "<" ++ d ++ ">"
    else "\"" ++ escQuotes d ++ "\""
  | .vnum n, _ => toString n
  | .vbool b, _ => cond b "true" "false"
  | .varr [], _ => "()"
  | .varr (v :: vs), indent =>
    let items := formatValueList decode (v :: vs) (indent ++ "  ")
    if (v :: vs).all (fun e => !isObjectVal e)
    then "(\n" ++ indent ++ "  " ++ joinSep " " items ++ "\n" ++ indent ++ ")"
    else joinSep (" ,\n" ++ indent) items
  | .vobj kvs, indent =>
    match List.lookup "@type" kvs with
    | some tv =>
      if truthy tv then
        "[\n" ++ indent ++ "  a schema:" ++ jsToString tv ++ " ;\n"
          ++ joinSep " ;\n" (formatProps decode kvs indent)
          ++ "\n" ++ indent ++ "]"
      else "\"" ++ escQuotes (decode (jsonStringify (.vobj kvs))) ++ "\""
    | none => "\"" ++ escQuotes (decode (jsonStringify (.vobj kvs))) ++ "\""
  | .vnull, _ => "\"\""

/-- The mapped recursive calls value.map of formatValue over array
elements, at the indent the array branch passes down. -/
def formatValueList (decode : String → String) : List JSValue → String → List String
  | [], _ => []
  | v :: vs, ind => formatValue decode v ind :: formatValueList decode vs ind

/-- The property lines of an anonymous typed node: every entry except the
attribute-type marker, rendered as indent, predicate and formatted value
(source lines 102-107). -/
def formatProps (decode : String → String) : List (String × JSValue) → String → List String
  | [], _ => []
  | (k, v) :: rest, ind =>
    if k = "@type" then formatProps decode rest ind
    else (ind ++ "  " ++ (if strContains k ":" then k else "schema:" ++ k) ++ " "
            ++ formatValue decode v (ind ++ "  ")) :: formatProps decode rest ind
end

/-- The prefix declaration block toTurtle emits first: one at-prefix line
per table entry joined by newlines, then a blank line (source lines
67-69). -/
def prefixHeader : String :=
  joinSep "\n" (prefixes.map (fun pu => "@prefix " ++ pu.1 ++ ": <" ++ pu.2 ++ "> .")) ++ "\n\n"

/-- Model of RDFConverter.toTurtle (source lines 66-80). -/
def toTurtle (decode : String → String) (data : JSObj) : String :=
  let typeStr : String :=
    match List.lookup "@type" data with
    | some tv => if truthy tv then jsToString tv else "Resource"
    | none => "Resource"
  let props : List String :=
    (data.filter (fun kv => !(kv.1 = "@context" || kv.1 = "@type"))).map
      (fun kv => "  " ++ (if strContains kv.1 ":" then kv.1 else "schema:" ++ kv.1)
                 ++ " " ++ formatValue decode kv.2 "  ")
  prefixHeader ++ "<> a schema:" ++ typeStr ++ " ;\n" ++ joinSep " ;\n" props ++ " .\n"

end RDFConverter

namespace JSONLDExplorer

/-- The view formats the explorer can display (the keys of
this.elements.views, source lines 166-172). -/
inductive Format where
  | table
  | turtle
  | rdfxml
  | ntriples
  | nquads
deriving DecidableEq, Repr

/-- External collaborators of the controller, per the scope of the
specification: the DOM entity decoder, the availability and behaviour of
the RDFLib converter (window.rdf of RDFConverter.toRDF), the
availability of the jsonld library, and the table HTML renderer
(DataRenderer plus renderTable, scoped out as display-layer).  The
asynchronous N-Quads converter result is delivered as an argument of the
resolution steps instead. -/
structure Env where
  decode : String → String
  rdfAvailable : Bool
  jsonldAvailable : Bool
  rdfResult : String → String → Except String String
  renderTableHTML : JSObj → String

/-- Model of RDFConverter.toRDF (source lines 126-141): unavailable
library reported, external parse and serialize wrapped so a thrown
failure becomes an error-prefixed text. -/
def toRDF (env : Env) (format : String) (turtle : String) : String :=
  if !env.rdfAvailable then "RDFLib not loaded!"
  else
    match env.rdfResult format turtle with
    | .ok s => s
    | .error e => "Error converting: " ++ e

/-- The mutable state of a JSONLDExplorer instance together with the
observable DOM state it drives.  The field derivLog is a ghost
instrumentation list recording, in order, every format whose derivation
generateContent or handleAsyncNQuads has issued; it has no counterpart in
the JavaScript state and exists only to state the temporal claims. -/
structure AppState where
  data : Option JSObj
  currentFormat : Format
  cache : Format → Option String
  viewDisplay : Format → Bool
  viewText : Format → String
  loadDisabled : Bool
  loadText : String
  downloadVisible : Bool
  toggleTurtleDisabled : Bool
  toggleRdfxmlDisabled : Bool
  toggleNtriplesDisabled : Bool
  toggleNquadsDisabled : Bool
  derivLog : List Format

/-- Pointwise update of a function-valued state field. -/
def updFn {β : Type} (f : Format → β) (a : Format) (b : β) : Format → β :=
  fun x => if x = a then b else f x

/-- Hiding of every view (the forEach over views setting display none). -/
def hideAll (st : AppState) : AppState :=
  { st with viewDisplay := fun _ => false }

/-- A suspension point of the controller: the showView nquads path
awaiting the external converter, or a handleAsyncNQuads call awaiting
it. -/
inductive Pending where
  | svNQ
  | haNQ
deriving DecidableEq, Repr

/-- Result of running a controller step to its next suspension point (or
completion): the state reached plus an optional in-flight background
continuation. -/
structure StepOut where
  st : AppState
  pending : Option Pending

/-- Model of renderContent (source lines 317-331) at the point it is
called with content just looked up or stored: when the format is nquads,
the content equals the nquads cache entry and the content contains the
text Loading, handleAsyncNQuads starts (it sets the text to Loading...,
issues a new derivation and suspends); otherwise the view text becomes
the content. -/
def renderContent (st : AppState) (fmt : Format) (content : String) : StepOut :=
  if fmt = .nquads ∧ st.cache .nquads = some content ∧ strContains content "Loading" = true then
    ⟨{ st with viewText := updFn st.viewText .nquads "Loading...",
               derivLog := st.derivLog ++ [Format.nquads] }, some .haNQ⟩
  else
    ⟨{ st with viewText := updFn st.viewText fmt content }, none⟩

/-- The derivation issue point of showView: generateContent (source lines
305-315) computes the turtle text synchronously and, per format, returns
the content at once (turtle, the two RDFLib formats, the empty default)
or suspends awaiting the N-Quads converter.  The issued format is
recorded in the ghost derivation log.  On a synchronous result showView
stores it in the cache, renders it and shows the view. -/
def issueDerivation (env : Env) (st : AppState) (fmt : Format) : StepOut :=
  match st.data with
  | none => ⟨st, none⟩
  | some doc =>
    let st := { st with derivLog := st.derivLog ++ [fmt] }
    let turtle := RDFConverter.toTurtle env.decode doc
    match fmt with
    | .nquads => ⟨st, some .svNQ⟩
    | .table =>
      let st := { st with cache := updFn st.cache .table (some "") }
      let out := renderContent st .table ""
      ⟨{ out.st with viewDisplay := updFn out.st.viewDisplay .table true }, out.pending⟩
    | .turtle =>
      let st := { st with cache := updFn st.cache .turtle (some turtle) }
      let out := renderContent st .turtle turtle
      ⟨{ out.st with viewDisplay := updFn out.st.viewDisplay .turtle true }, out.pending⟩
    | .rdfxml =>
      let content := toRDF env "rdfxml" turtle
      let st := { st with cache := updFn st.cache .rdfxml (some content) }
      let out := renderContent st .rdfxml content
      ⟨{ out.st with viewDisplay := updFn out.st.viewDisplay .rdfxml true }, out.pending⟩
    | .ntriples =>
      let content := toRDF env "ntriples" turtle
      let st := { st with cache := updFn st.cache .ntriples (some content) }
      let out := renderContent st .ntriples content
      ⟨{ out.st with viewDisplay := updFn out.st.viewDisplay .ntriples true }, out.pending⟩

/-- Model of showView (source lines 279-303) up to its next suspension
point: no-op without a document; otherwise hide all views, record the
current format, set download visibility, show the table at once for the
table format, and for the others consult the cache — a non-empty entry is
rendered and shown synchronously, an absent or empty entry issues the
derivation (which suspends for nquads). -/
def showView (env : Env) (st : AppState) (fmt : Format) : StepOut :=
  match st.data with
  | none => ⟨st, none⟩
  | some _ =>
    let st := hideAll st
    let st := { st with currentFormat := fmt,
                        downloadVisible := decide (fmt ≠ .table) }
    if fmt = .table then
      ⟨{ st with viewDisplay := updFn st.viewDisplay .table true }, none⟩
    else
      match st.cache fmt with
      | some c =>
        if c = "" then issueDerivation env st fmt
        else
          let out := renderContent st fmt c
          ⟨{ out.st with viewDisplay := updFn out.st.viewDisplay fmt true }, out.pending⟩
      | none => issueDerivation env st fmt

/-- Resumption of the suspended showView nquads path once the external
converter delivers its text (source lines 296-302 after the await): the
text is stored in the nquads cache entry, renderContent runs, and the
nquads view is displayed — with no check that nquads is still the current
format. -/
def resolveShowViewNQuads (st : AppState) (content : String) : StepOut :=
  let st := { st with cache := updFn st.cache .nquads (some content) }
  let out := renderContent st .nquads content
  ⟨{ out.st with viewDisplay := updFn out.st.viewDisplay .nquads true }, out.pending⟩

/-- Resumption of a handleAsyncNQuads suspension (source lines 336-340,
and 341-347 with content already error-formatted): the text is cached and
written into the view only if nquads is still the current format. -/
def resolveHandleAsync (st : AppState) (content : String) : AppState :=
  let st := { st with cache := updFn st.cache .nquads (some content) }
  if st.currentFormat = .nquads then
    { st with viewText := updFn st.viewText .nquads content }
  else st

/-- Model of wrapGenericData (source lines 238-246): the fixed
attribute-context binding and the Resource attribute-type, followed by
every entry of the input whose key is not one of the two markers, in
the order of the input. -/
def wrapGenericData (data : JSObj) : JSObj :=
  ("@context", .vobj [("schema", .vstr "https://schema.org/")]) ::
  ("@type", .vstr "Resource") ::
  data.filter (fun kv => !(kv.1 = "@context" || kv.1 = "@type"))

/-- The normalization step of loadData (source line 224): a semantic
document is kept as is, any other is wrapped in the generic envelope. -/
def normalizeData (data : JSObj) : JSObj :=
  if utils.isJSONLD data then data else wrapGenericData data

/-- Model of setLoadingState (source lines 257-268). -/
def setLoadingState (st : AppState) (isLoading : Bool) : AppState :=
  let st := { st with loadDisabled := isLoading,
                      loadText := if isLoading then "Loading..." else "Load Data",
                      downloadVisible := false }
  if isLoading then
    { (hideAll st) with viewText := updFn st.viewText .table "Loading..." }
  else st

/-- The synchronous start of loadData before the fetch suspends (source
lines 215-218). -/
def startLoad (st : AppState) : AppState :=
  setLoadingState st true

/-- The success continuation of loadData (source lines 221-229): the
fetched tree is normalized into the live document, the cache is reset,
the table is rendered from the raw tree and shown, button availability
follows the external libraries, and the loading state ends. -/
def finishLoadSuccess (env : Env) (st : AppState) (data : JSObj) : AppState :=
  let st := { st with data := some (normalizeData data),
                      cache := fun _ => none }
  let st := { st with viewText := updFn st.viewText .table (env.renderTableHTML data) }
  let st := (showView env st .table).st
  let st := { st with toggleTurtleDisabled := false,
                      toggleRdfxmlDisabled := !env.rdfAvailable,
                      toggleNtriplesDisabled := !env.rdfAvailable,
                      toggleNquadsDisabled := !env.jsonldAvailable }
  setLoadingState st false

/-- The failure continuation of loadData (source lines 231-235): the
fixed failure message is written into the table view and the loading
state ends; document and cache are not touched. -/
def finishLoadFailure (st : AppState) : AppState :=
  let st := { st with viewText := updFn st.viewText .table
                        "Failed to load data! Check the URL and try again." }
  setLoadingState st false

/-- One whole load operation: the synchronous start, then the success or
failure continuation according to the fetch and parse outcome. -/
def loadDataRun (env : Env) (st : AppState) (result : Option JSObj) : AppState :=
  match result with
  | some d => finishLoadSuccess env (startLoad st) d
  | none => finishLoadFailure (startLoad st)

end JSONLDExplorer

/-!
Specification-side vocabulary: the subject-description block as the
specification describes it, used to state the serializer claims.
-/

/-- Terminator layout of the spec: every line terminated by a semicolon
separator except the last, which is terminated by the final period (the
degenerate empty list yields the bare period line ending, matching an
empty join). -/
def termLines : List String → String
  | [] => " .\n"
  | [p] => p ++ " .\n"
  | p :: q :: ps => p ++ " ;\n" ++ termLines (q :: ps)

/-- The subject type name the code computes: the attribute-type value
when present and truthy, else the literal Resource. -/
def subjectTypeName (doc : JSObj) : String :=
  match List.lookup "@type" doc with
  | some tv => if truthy tv then jsToString tv else "Resource"
  | none => "Resource"

/-- Modelled from the claim wording of C1: the subject type name taken
verbatim from the attribute-type value whenever the key is present,
regardless of truthiness. -/
def subjectTypeNameClaim (doc : JSObj) : String :=
  match List.lookup "@type" doc with
  | some tv => jsToString tv
  | none => "Resource"

/-- Predicate name rule: a key containing a colon is used verbatim,
otherwise the schema prefix is prepended. -/
def predicateFor (k : String) : String :=
  if strContains k ":" then k else "schema:" ++ k

/-- The subject-description block in the terminator formulation of the
spec, with the type name the code computes. -/
def subjectBlock (decode : String → String) (doc : JSObj) : String :=
  "<> a schema:" ++ subjectTypeName doc ++ " ;\n" ++
    termLines ((doc.filter (fun kv => !(kv.1 = "@context" || kv.1 = "@type"))).map
      (fun kv => "  " ++ predicateFor kv.1 ++ " " ++ RDFConverter.formatValue decode kv.2 "  "))

/-- Modelled from the claim wording of C1: the whole serializer output
with the present-key (rather than truthy) subject type rule. -/
def toTurtleClaimC1 (decode : String → String) (doc : JSObj) : String :=
  RDFConverter.prefixHeader ++ "<> a schema:" ++ subjectTypeNameClaim doc ++ " ;\n" ++
    termLines ((doc.filter (fun kv => !(kv.1 = "@context" || kv.1 = "@type"))).map
      (fun kv => "  " ++ predicateFor kv.1 ++ " " ++ RDFConverter.formatValue decode kv.2 "  "))

/-!
Concrete fixtures shared by several witnesses and counterexamples.
-/

/-- A plain one-property document. -/
def aliceDoc : JSObj := [("name", .vstr "Alice")]

/-- The nested-friend example document of the spec. -/
def friendDoc : JSObj :=
  [("@type", .vstr "Person"),
   ("friends", .varr [.vobj [("@type", .vstr "Person"), ("name", .vstr "Bob")]])]

/-- A semantic document whose attribute-type is present but falsy while
the attribute-context is truthy. -/
def falsyTypeDoc : JSObj :=
  [("@context", .vstr "ctx"), ("@type", .vstr ""), ("name", .vstr "Alice")]

/-- A concrete environment with the identity entity decoder and both
external converters available. -/
def envId : JSONLDExplorer.Env :=
  { decode := id, rdfAvailable := true, jsonldAvailable := true,
    rdfResult := fun _ _ => .ok "", renderTableHTML := fun _ => "" }

/-- A ready controller state holding a loaded document with an empty
cache, the table shown. -/
def readyState (doc : JSObj) : JSONLDExplorer.AppState :=
  { data := some doc, currentFormat := .table, cache := fun _ => none,
    viewDisplay := fun f => f = .table, viewText := fun _ => "",
    loadDisabled := false, loadText := "Load Data", downloadVisible := false,
    toggleTurtleDisabled := false, toggleRdfxmlDisabled := false,
    toggleNtriplesDisabled := false, toggleNquadsDisabled := false,
    derivLog := [] }

/-- The ready state with a non-empty cached turtle text. -/
def cachedTurtleState : JSONLDExplorer.AppState :=
  { readyState aliceDoc with
    cache := JSONLDExplorer.updFn (fun _ => none) .turtle (some "ttl") }

/-- The ready state whose turtle cache entry holds the empty string. -/
def emptyCachedState : JSONLDExplorer.AppState :=
  { readyState aliceDoc with
    cache := JSONLDExplorer.updFn (fun _ => none) .turtle (some "") }

/-!
Helper lemmas.
-/

/-- Joining with the semicolon separator and appending the final period
line ending equals the terminator formulation of the spec. -/
theorem joinSep_termLines : ∀ ps : List String, joinSep " ;\n" ps ++ " .\n" = termLines ps
  | [] => by simp [joinSep, termLines]
  | [p] => by simp [joinSep, termLines]
  | p :: q :: ps => by
    have ih := joinSep_termLines (q :: ps)
    rw [termLines, ← ih, joinSep]
    simp [String.append_assoc]

/-- A showView request for nquads from a state holding a document and no
nquads cache entry hides the views, switches the current format, records
one issued derivation and suspends awaiting the external converter. -/
theorem showView_nquads_miss (env : JSONLDExplorer.Env)
    (st : JSONLDExplorer.AppState) (doc : JSObj)
    (hdata : st.data = some doc) (hcache : st.cache .nquads = none) :
    JSONLDExplorer.showView env st .nquads =
      ⟨{ st with viewDisplay := fun _ => false,
                 currentFormat := .nquads,
                 downloadVisible := true,
                 derivLog := st.derivLog ++ [.nquads] }, some .svNQ⟩ := by
  simp only [JSONLDExplorer.showView, hdata, JSONLDExplorer.hideAll]
  rw [if_neg (by decide : ¬ (JSONLDExplorer.Format.nquads = .table))]
  simp only [hcache, JSONLDExplorer.issueDerivation, hdata]
  rfl

/-- The mapped recursion helper agrees with List.map of formatValue. -/
theorem formatValueList_eq_map (decode : String → String) :
    ∀ (vs : List JSValue) (ind : String),
      RDFConverter.formatValueList decode vs ind
        = vs.map (fun e => RDFConverter.formatValue decode e ind)
  | [], _ => rfl
  | _ :: vs, ind => by
    rw [RDFConverter.formatValueList, List.map_cons, formatValueList_eq_map decode vs ind]

/-!
Claims.
-/

/-- C3: wrapping a non-semantic mapping yields exactly the two fixed
marker entries followed by every entry of the input unchanged and in
order, and the result is semantic. -/
theorem wrapGenericData_adds_markers (raw : JSObj)
    (hc : ∀ kv ∈ raw, kv.1 ≠ "@context") (ht : ∀ kv ∈ raw, kv.1 ≠ "@type") :
    JSONLDExplorer.wrapGenericData raw =
      ("@context", .vobj [("schema", .vstr "https://schema.org/")]) ::
      ("@type", .vstr "Resource") :: raw
    ∧ utils.isJSONLD (JSONLDExplorer.wrapGenericData raw) = true := by
  have hfilter : raw.filter (fun kv => !(kv.1 = "@context" || kv.1 = "@type")) = raw := by
    rw [List.filter_eq_self]
    intro kv hkv
    simp [hc kv hkv, ht kv hkv]
  constructor
  · rw [JSONLDExplorer.wrapGenericData, hfilter]
  · simp [utils.isJSONLD, JSONLDExplorer.wrapGenericData, List.lookup, truthyOpt, truthy]

/-- C3 witness at a concrete one-entry mapping. -/
theorem wrapGenericData_adds_markers_witness :
    JSONLDExplorer.wrapGenericData [("name", .vstr "Alice")] =
      ("@context", .vobj [("schema", .vstr "https://schema.org/")]) ::
      ("@type", .vstr "Resource") :: [("name", .vstr "Alice")]
    ∧ utils.isJSONLD (JSONLDExplorer.wrapGenericData [("name", .vstr "Alice")]) = true :=
  wrapGenericData_adds_markers [("name", .vstr "Alice")]
    (by intro kv hkv; simp at hkv; simp [hkv])
    (by intro kv hkv; simp at hkv; simp [hkv])

/-- C8: the normalization step returns a semantic input unchanged. -/
theorem normalizeData_semantic_identity (raw : JSObj)
    (h : utils.isJSONLD raw = true) :
    JSONLDExplorer.normalizeData raw = raw := by
  rw [JSONLDExplorer.normalizeData, h]
  simp

/-- C8 witness at a concrete semantic mapping. -/
theorem normalizeData_semantic_identity_witness :
    utils.isJSONLD [("@type", .vstr "Person")] = true
    ∧ JSONLDExplorer.normalizeData [("@type", .vstr "Person")] = [("@type", .vstr "Person")] :=
  ⟨rfl, normalizeData_semantic_identity [("@type", .vstr "Person")] rfl⟩

/-- C9: formatValue on an absent (null) value totally returns the
two-character literal of an empty quoted string. -/
theorem formatValue_null (decode : String → String) (indent : String) :
    RDFConverter.formatValue decode .vnull indent = "\"\""
    ∧ String.length "\"\"" = 2 :=
  ⟨rfl, rfl⟩

set_option maxRecDepth 16384 in
/-- C1 counterexample: on a semantic document whose attribute-type is
present but falsy, the code emits the Resource subject type while the
claim prescribes the present value verbatim, so the two outputs
differ. -/
theorem toTurtle_presentType_counterexample :
    utils.isJSONLD falsyTypeDoc = true
    ∧ RDFConverter.toTurtle id falsyTypeDoc ≠ toTurtleClaimC1 id falsyTypeDoc
    ∧ strContains (RDFConverter.toTurtle id falsyTypeDoc) "<> a schema:Resource ;" = true
    ∧ strContains (toTurtleClaimC1 id falsyTypeDoc) "<> a schema:Resource ;" = false := by
  refine ⟨rfl, ?_, rfl, rfl⟩
  intro h
  have := congrArg (fun s => strContains s "<> a schema:Resource ;") h
  simp only at this
  exact absurd this (by decide)

/-- C1 amended: for every semantic document the serializer output is the
prefix header followed by the subject-description block — the subject
line with the truthy attribute-type value (else Resource), then one
property line per non-marker key in document order with the
colon-verbatim predicate rule, each line terminated by the semicolon
separator except the last, terminated by the final period. -/
theorem toTurtle_subject_block (decode : String → String) (doc : JSObj)
    (_h : utils.isJSONLD doc = true) :
    RDFConverter.toTurtle decode doc
      = RDFConverter.prefixHeader ++ subjectBlock decode doc := by
  rw [RDFConverter.toTurtle, subjectBlock, subjectTypeName]
  rw [← joinSep_termLines]
  simp only [predicateFor, String.append_assoc]

/-- C1 witness at a concrete semantic document. -/
theorem toTurtle_subject_block_witness :
    utils.isJSONLD friendDoc = true
    ∧ RDFConverter.toTurtle id friendDoc
        = RDFConverter.prefixHeader ++ subjectBlock id friendDoc :=
  ⟨rfl, toTurtle_subject_block id friendDoc rfl⟩

/-- C2 counterexample: a mapping-free sequence is rendered with all its
elements joined by single spaces on one indented line, not one element
per line; and a sequence whose only element is a nested sequence (still
mapping-free) is not rendered in the parenthesized layout at all. -/
theorem formatValue_sequence_counterexample :
    (RDFConverter.formatValue id (.varr [.vnum 1, .vnum 2]) "" = "(\n  1 2\n)"
     ∧ RDFConverter.formatValue id (.varr [.vnum 1, .vnum 2]) "" ≠ "(\n  1\n  2\n)")
    ∧ (RDFConverter.formatValue id (.varr [.varr [.vnum 1]]) "" = "(\n    1\n  )"
     ∧ RDFConverter.formatValue id (.varr [.varr [.vnum 1]]) "" ≠ "(\n  (\n    1\n  )\n)") :=
  ⟨⟨rfl, by decide⟩, ⟨rfl, by decide⟩⟩

/-- C2 amended: a non-empty sequence none of whose elements is an object
(neither mapping nor nested sequence) is rendered as an opening
parenthesis, the formatted elements joined by single spaces on one
indented line, and a closing parenthesis; a non-empty sequence with at
least one object element is rendered as the formatted elements joined by
the comma separator and the indent. -/
theorem formatValue_sequence_layout (decode : String → String)
    (v : JSValue) (vs : List JSValue) (indent : String) :
    ((v :: vs).all (fun e => !isObjectVal e) = true →
      RDFConverter.formatValue decode (.varr (v :: vs)) indent =
        "(\n" ++ indent ++ "  " ++
          joinSep " " ((v :: vs).map (fun e => RDFConverter.formatValue decode e (indent ++ "  ")))
          ++ "\n" ++ indent ++ ")")
    ∧ ((v :: vs).all (fun e => !isObjectVal e) = false →
      RDFConverter.formatValue decode (.varr (v :: vs)) indent =
        joinSep (" ,\n" ++ indent)
          ((v :: vs).map (fun e => RDFConverter.formatValue decode e (indent ++ "  ")))) := by
  constructor
  · intro h
    rw [RDFConverter.formatValue, formatValueList_eq_map]
    simp [h]
  · intro h
    rw [RDFConverter.formatValue, formatValueList_eq_map]
    simp [h]

/-- C2 witness: the two layouts at concrete sequences. -/
theorem formatValue_sequence_layout_witness :
    RDFConverter.formatValue id (.varr [.vnum 1, .vnum 2]) "" = "(\n  1 2\n)"
    ∧ RDFConverter.formatValue id
        (.varr [.vobj [("a", .vnum 1)], .vnum 2]) "" =
        joinSep " ,\n"
          ([JSValue.vobj [("a", .vnum 1)], JSValue.vnum 2].map
            (fun e => RDFConverter.formatValue id e "  ")) :=
  ⟨((formatValue_sequence_layout id (.vnum 1) [.vnum 2] "").1 rfl).trans rfl,
   (formatValue_sequence_layout id (.vobj [("a", .vnum 1)]) [.vnum 2] "").2 rfl⟩

set_option maxRecDepth 16384 in
/-- C5 counterexample: the claimed two-space-indented anonymous node
text does not occur anywhere in the serializer output for the
nested-friend document. -/
theorem friend_render_counterexample :
    strContains (RDFConverter.toTurtle id friendDoc)
      "[\n  a schema:Person ;\n  schema:name \"Bob\"\n]" = false := by
  rfl

set_option maxRecDepth 16384 in
/-- C5 amended: the nested friend mapping is rendered as an anonymous
typed node whose inner lines carry six spaces of indentation and whose
closing bracket carries four, because the property value is formatted at
one indent unit and the enclosing sequence adds another. -/
theorem friend_render_actual :
    RDFConverter.toTurtle id friendDoc
      = RDFConverter.prefixHeader ++
        "<> a schema:Person ;\n  schema:friends [\n      a schema:Person ;\n      schema:name \"Bob\"\n    ] .\n"
    ∧ strContains (RDFConverter.toTurtle id friendDoc)
        "[\n      a schema:Person ;\n      schema:name \"Bob\"\n    ]" = true :=
  ⟨rfl, rfl⟩

/-- C6: a failing load leaves document and cache untouched, writes the
fixed failure message into the table view and re-enables the load
control — but the table view, hidden when the load started, is never
re-displayed, so the message stays invisible. -/
theorem loadFailure_effects (env : JSONLDExplorer.Env) (st : JSONLDExplorer.AppState) :
    (JSONLDExplorer.loadDataRun env st none).data = st.data
    ∧ (JSONLDExplorer.loadDataRun env st none).cache = st.cache
    ∧ (JSONLDExplorer.loadDataRun env st none).viewText .table
        = "Failed to load data! Check the URL and try again."
    ∧ (JSONLDExplorer.loadDataRun env st none).loadDisabled = false
    ∧ (JSONLDExplorer.loadDataRun env st none).loadText = "Load Data"
    ∧ (JSONLDExplorer.loadDataRun env st none).viewDisplay .table = false := by
  refine ⟨rfl, rfl, ?_, rfl, rfl, rfl⟩
  simp [JSONLDExplorer.loadDataRun, JSONLDExplorer.finishLoadFailure,
        JSONLDExplorer.startLoad, JSONLDExplorer.setLoadingState,
        JSONLDExplorer.hideAll, JSONLDExplorer.updFn]

/-- C4: issue the nquads request from a ready state, switch to turtle
while the derivation is in flight, then let it resolve — the text is
stored in the nquads cache entry as claimed, but the code also rewrites
the nquads view text and re-displays the nquads view although the
current format is turtle, so the stale text becomes visible next to the
turtle view. -/
theorem stale_nquads_becomes_visible :
    (JSONLDExplorer.showView envId (readyState aliceDoc) .nquads).pending
      = some .svNQ
    ∧ (JSONLDExplorer.showView envId
        (JSONLDExplorer.showView envId (readyState aliceDoc) .nquads).st .turtle).pending
      = none
    ∧ (JSONLDExplorer.resolveShowViewNQuads
        (JSONLDExplorer.showView envId
          (JSONLDExplorer.showView envId (readyState aliceDoc) .nquads).st .turtle).st
        "<urn:a> <urn:b> \"c\" .\n").st.cache .nquads
      = some "<urn:a> <urn:b> \"c\" .\n"
    ∧ (JSONLDExplorer.resolveShowViewNQuads
        (JSONLDExplorer.showView envId
          (JSONLDExplorer.showView envId (readyState aliceDoc) .nquads).st .turtle).st
        "<urn:a> <urn:b> \"c\" .\n").st.currentFormat
      = .turtle
    ∧ (JSONLDExplorer.resolveShowViewNQuads
        (JSONLDExplorer.showView envId
          (JSONLDExplorer.showView envId (readyState aliceDoc) .nquads).st .turtle).st
        "<urn:a> <urn:b> \"c\" .\n").st.viewDisplay .turtle
      = true
    ∧ (JSONLDExplorer.resolveShowViewNQuads
        (JSONLDExplorer.showView envId
          (JSONLDExplorer.showView envId (readyState aliceDoc) .nquads).st .turtle).st
        "<urn:a> <urn:b> \"c\" .\n").st.viewDisplay .nquads
      = true
    ∧ (JSONLDExplorer.resolveShowViewNQuads
        (JSONLDExplorer.showView envId
          (JSONLDExplorer.showView envId (readyState aliceDoc) .nquads).st .turtle).st
        "<urn:a> <urn:b> \"c\" .\n").st.viewText .nquads
      = "<urn:a> <urn:b> \"c\" .\n" :=
  ⟨rfl, rfl, rfl, rfl, rfl, rfl, rfl⟩

/-- C7 counterexample: two nquads requests from a ready state with the
derivation still in flight issue two derivations — there is no pending
marker, so the in-flight request is not deduplicated. -/
theorem duplicate_inflight_derivation :
    (JSONLDExplorer.showView envId (readyState aliceDoc) .nquads).pending = some .svNQ
    ∧ (JSONLDExplorer.showView envId
        (JSONLDExplorer.showView envId (readyState aliceDoc) .nquads).st .nquads).pending
      = some .svNQ
    ∧ (JSONLDExplorer.showView envId
        (JSONLDExplorer.showView envId (readyState aliceDoc) .nquads).st .nquads).st.derivLog
      = [.nquads, .nquads] :=
  ⟨rfl, rfl, rfl⟩

/-- C7 amended: a repeated request for a format whose derivation has
completed with non-empty cached text (not containing the Loading marker)
issues no derivation and serves the cache; but a repeated request for a
format still in flight — whose cache entry is not yet written — issues a
duplicate derivation. -/
theorem requestFormat_dedup_only_after_completion :
    (∀ (env : JSONLDExplorer.Env) (st : JSONLDExplorer.AppState)
        (doc : JSObj) (fmt : JSONLDExplorer.Format) (c : String),
        st.data = some doc → fmt ≠ .table → st.cache fmt = some c → c ≠ "" →
        strContains c "Loading" = false →
        (JSONLDExplorer.showView env st fmt).st.derivLog = st.derivLog
        ∧ (JSONLDExplorer.showView env st fmt).pending = none
        ∧ (JSONLDExplorer.showView env st fmt).st.viewText fmt = c)
    ∧ (∀ (env : JSONLDExplorer.Env) (st : JSONLDExplorer.AppState) (doc : JSObj),
        st.data = some doc → st.cache .nquads = none →
        (JSONLDExplorer.showView env
          (JSONLDExplorer.showView env st .nquads).st .nquads).st.derivLog
          = st.derivLog ++ [.nquads, .nquads]
        ∧ (JSONLDExplorer.showView env
            (JSONLDExplorer.showView env st .nquads).st .nquads).pending = some .svNQ) := by
  constructor
  · intro env st doc fmt c hdata hfmt hcache hne hnl
    rw [JSONLDExplorer.showView, hdata]
    simp only [JSONLDExplorer.hideAll]
    rw [if_neg hfmt]
    simp only [hcache]
    rw [if_neg hne]
    rw [JSONLDExplorer.renderContent]
    by_cases hq : fmt = .nquads
    · subst hq
      rw [if_neg]
      · exact ⟨rfl, rfl, by simp [JSONLDExplorer.updFn]⟩
      · intro hcond
        rw [hcond.2.2] at hnl
        simp at hnl
    · rw [if_neg]
      · exact ⟨rfl, rfl, by simp [JSONLDExplorer.updFn]⟩
      · intro hcond
        exact hq hcond.1
  · intro env st doc hdata hcache
    have h2 := showView_nquads_miss env st doc hdata hcache
    have h3 := showView_nquads_miss env
      ({ st with viewDisplay := fun _ => false, currentFormat := .nquads,
                 downloadVisible := true,
                 derivLog := st.derivLog ++ [.nquads] }) doc hdata hcache
    rw [h2]
    simp only []
    rw [h3]
    simp [List.append_assoc]

/-- C7 witness: a repeated turtle request with non-empty cached text
issues no derivation, and two nquads requests with the first still in
flight issue two. -/
theorem requestFormat_dedup_witness :
    (JSONLDExplorer.showView envId cachedTurtleState .turtle).st.derivLog = []
    ∧ (JSONLDExplorer.showView envId cachedTurtleState .turtle).pending = none
    ∧ (JSONLDExplorer.showView envId
        (JSONLDExplorer.showView envId (readyState aliceDoc) .nquads).st .nquads).st.derivLog
        = [.nquads, .nquads] := by
  refine ⟨?_, ?_, ?_⟩
  · exact (requestFormat_dedup_only_after_completion.1 envId cachedTurtleState aliceDoc
      .turtle "ttl" rfl (by decide) rfl (by decide) rfl).1
  · exact (requestFormat_dedup_only_after_completion.1 envId cachedTurtleState aliceDoc
      .turtle "ttl" rfl (by decide) rfl (by decide) rfl).2.1
  · exact (requestFormat_dedup_only_after_completion.2 envId (readyState aliceDoc)
      aliceDoc rfl rfl).1

/-- C10: a cache entry holding the empty string is treated as absent —
the request recomputes the derivation (for turtle, refreshing the entry
with the freshly serialized text) — while non-empty cached text is served
with no new derivation. -/
theorem emptyCache_recomputes :
    (∀ (env : JSONLDExplorer.Env) (st : JSONLDExplorer.AppState)
        (doc : JSObj) (fmt : JSONLDExplorer.Format),
        st.data = some doc → fmt ≠ .table → st.cache fmt = some "" →
        (JSONLDExplorer.showView env st fmt).st.derivLog = st.derivLog ++ [fmt])
    ∧ (∀ (env : JSONLDExplorer.Env) (st : JSONLDExplorer.AppState) (doc : JSObj),
        st.data = some doc → st.cache .turtle = some "" →
        (JSONLDExplorer.showView env st .turtle).st.cache .turtle
          = some (RDFConverter.toTurtle env.decode doc))
    ∧ (∀ (env : JSONLDExplorer.Env) (st : JSONLDExplorer.AppState)
        (doc : JSObj) (c : String),
        st.data = some doc → st.cache .turtle = some c → c ≠ "" →
        (JSONLDExplorer.showView env st .turtle).st.derivLog = st.derivLog
        ∧ (JSONLDExplorer.showView env st .turtle).st.viewText .turtle = c) := by
  refine ⟨?_, ?_, ?_⟩
  · intro env st doc fmt hdata hfmt hcache
    cases fmt with
    | table => exact absurd rfl hfmt
    | turtle =>
      simp [JSONLDExplorer.showView, hdata, JSONLDExplorer.hideAll, hcache,
            JSONLDExplorer.issueDerivation, JSONLDExplorer.renderContent]
    | rdfxml =>
      simp [JSONLDExplorer.showView, hdata, JSONLDExplorer.hideAll, hcache,
            JSONLDExplorer.issueDerivation, JSONLDExplorer.renderContent]
    | ntriples =>
      simp [JSONLDExplorer.showView, hdata, JSONLDExplorer.hideAll, hcache,
            JSONLDExplorer.issueDerivation, JSONLDExplorer.renderContent]
    | nquads =>
      simp [JSONLDExplorer.showView, hdata, JSONLDExplorer.hideAll, hcache,
            JSONLDExplorer.issueDerivation]
  · intro env st doc hdata hcache
    simp [JSONLDExplorer.showView, hdata, JSONLDExplorer.hideAll, hcache,
          JSONLDExplorer.issueDerivation, JSONLDExplorer.renderContent,
          JSONLDExplorer.updFn]
  · intro env st doc c hdata hcache hne
    simp only [JSONLDExplorer.showView, hdata, JSONLDExplorer.hideAll]
    rw [if_neg (by decide : ¬ (JSONLDExplorer.Format.turtle = .table))]
    simp only [hcache]
    rw [if_neg hne]
    simp [JSONLDExplorer.renderContent, JSONLDExplorer.updFn]

/-- C10 witness: the empty-string turtle cache entry is recomputed and
refreshed, the non-empty one is served without a derivation. -/
theorem emptyCache_recomputes_witness :
    (JSONLDExplorer.showView envId emptyCachedState .turtle).st.derivLog = [.turtle]
    ∧ (JSONLDExplorer.showView envId emptyCachedState .turtle).st.cache .turtle
        = some (RDFConverter.toTurtle envId.decode aliceDoc)
    ∧ (JSONLDExplorer.showView envId cachedTurtleState .turtle).st.derivLog = []
    ∧ (JSONLDExplorer.showView envId cachedTurtleState .turtle).st.viewText .turtle = "ttl" := by
  refine ⟨?_, ?_, ?_, ?_⟩
  · exact emptyCache_recomputes.1 envId emptyCachedState aliceDoc .turtle rfl (by decide) rfl
  · exact emptyCache_recomputes.2.1 envId emptyCachedState aliceDoc rfl rfl
  · exact (emptyCache_recomputes.2.2 envId cachedTurtleState aliceDoc "ttl"
      rfl rfl (by decide)).1
  · exact (emptyCache_recomputes.2.2 envId cachedTurtleState aliceDoc "ttl"
      rfl rfl (by decide)).2

end MetadataExplorer
